import Mathlib

/-!
A shallow embedding of `create-test-images.py`, a one-shot script that draws
three 400×400 RGB raster images (a circle, a star, a heart) with the PIL
drawing library and writes them as PNG files under `/tmp/test-images`.

The embedding models:
* colors as RGB triples of naturals;
* a canvas (`Image`) as a mode, a width, a height and a pixel map;
* the PIL drawing operations used by the script (`ellipse`, `polygon`)
  as pure canvas transformers, with fill regions given by exact integer
  arithmetic (ellipse inclusion by the cross-multiplied ellipse equation,
  polygon inclusion by the even-odd crossing rule, outline bands by a
  distance test against the edges);
* the filesystem as a list of directories plus an association list from
  paths to decoded image contents (PNG encode/decode is the library's job
  and is modelled as the identity on the decoded content);
* `os.makedirs(..., exist_ok=True)` and `img.save(path)` as state
  transitions, with `save` given a success oracle so that write failures
  (disk full, permission) and the script's straight-line exception
  propagation can be expressed;
* the whole script as `runScript`, a function from an initial filesystem
  (and a save oracle) to a final filesystem, the printed lines, and an
  optional error.
-/

/-- An RGB color, one byte per channel. -/
structure Color where
  r : Nat
  g : Nat
  b : Nat
deriving DecidableEq, Repr

/-- The named color `'black'`. -/
def black : Color := ⟨0, 0, 0⟩

/-- Hex color `#667eea`, the circle fill of image 1. -/
def c667eea : Color := ⟨0x66, 0x7e, 0xea⟩

/-- Hex color `#764ba2`, the circle outline of image 1. -/
def c764ba2 : Color := ⟨0x76, 0x4b, 0xa2⟩

/-- Hex color `#f093fb`, the star fill of image 2. -/
def cf093fb : Color := ⟨0xf0, 0x93, 0xfb⟩

/-- Hex color `#f5576c`, the star outline of image 2. -/
def cf5576c : Color := ⟨0xf5, 0x57, 0x6c⟩

/-- Hex color `#ff5252`, the heart fill of image 3. -/
def cff5252 : Color := ⟨0xff, 0x52, 0x52⟩

/-- A raster canvas: PIL mode string, pixel dimensions, and the color at
each integer coordinate. -/
structure Image where
  mode : String
  width : Nat
  height : Nat
  pixel : Int → Int → Color

/-- `Image.new(mode, (w, h), color=bg)`: a canvas filled with `bg`. -/
def Image.new (mode : String) (w h : Nat) (bg : Color) : Image :=
  { mode := mode, width := w, height := h, pixel := fun _ _ => bg }

/-- Membership in the axis-aligned ellipse inscribed in the bounding box
`[x0, y0, x1, y1]`: the ellipse equation
`((x-cx)/rx)^2 + ((y-cy)/ry)^2 ≤ 1` cleared of denominators,
with `cx = (x0+x1)/2`, `rx = (x1-x0)/2` (everything doubled to stay in
integers). -/
def inEllipse (x0 y0 x1 y1 x y : Int) : Bool :=
  let dx := 2 * x - (x0 + x1)
  let dy := 2 * y - (y0 + y1)
  let a := x1 - x0
  let b := y1 - y0
  dx ^ 2 * b ^ 2 + dy ^ 2 * a ^ 2 ≤ a ^ 2 * b ^ 2

/-- One step of the even-odd rule: does the edge `a`–`b` cross the
horizontal ray going right from `p`?  The crossing abscissa
`ax + (bx-ax)·(py-ay)/(by-ay)` is compared with `px` after clearing the
denominator (sign-corrected). -/
def edgeCrossesRay (px py ax ay bx bY : Int) : Bool :=
  if (ay ≤ py ∧ py < bY) ∨ (bY ≤ py ∧ py < ay) then
    if ay < bY then (px - ax) * (bY - ay) < (bx - ax) * (py - ay)
    else (px - ax) * (bY - ay) > (bx - ax) * (py - ay)
  else false

/-- The closed edge list of a polygon: consecutive vertex pairs, last
vertex joined back to the first. -/
def polygonEdges (pts : List (Int × Int)) : List ((Int × Int) × (Int × Int)) :=
  match pts with
  | [] => []
  | p :: rest => List.zip (p :: rest) (rest ++ [p])

/-- Even-odd polygon membership: the rightward ray from the point crosses
an odd number of edges. -/
def inPolygon (pts : List (Int × Int)) (px py : Int) : Bool :=
  (polygonEdges pts |>.filter
    (fun e => edgeCrossesRay px py e.1.1 e.1.2 e.2.1 e.2.2)).length % 2 = 1

/-- Squared-distance test from a point to a segment, scaled to avoid
division: the point is within `w/2` of the segment `a`–`b`. -/
def nearSegment (px py ax ay bx bY : Int) (w : Nat) : Bool :=
  let ux := bx - ax
  let uy := bY - ay
  let vx := px - ax
  let vy := py - ay
  let dot := vx * ux + vy * uy
  let len2 := ux * ux + uy * uy
  if dot ≤ 0 then 4 * (vx * vx + vy * vy) ≤ (w : Int) ^ 2
  else if len2 ≤ dot then
    4 * ((px - bx) ^ 2 + (py - bY) ^ 2) ≤ (w : Int) ^ 2
  else 4 * (vx * uy - vy * ux) ^ 2 ≤ (w : Int) ^ 2 * len2

/-- The outline band of a polygon drawn with line width `w`: within
`w/2` of some edge. -/
def onPolygonOutline (pts : List (Int × Int)) (px py : Int) (w : Nat) : Bool :=
  (polygonEdges pts).any
    (fun e => nearSegment px py e.1.1 e.1.2 e.2.1 e.2.2 w)

/-- `ImageDraw.ellipse(bbox, fill, outline, width)`: pixels inside the
ellipse get the fill color; when an outline color is given, the band of
width `w` just inside the boundary (outside the bounding box inset by
`w`) gets the outline color instead; pixels outside are untouched. -/
def drawEllipseOp (img : Image) (x0 y0 x1 y1 : Int)
    (fill : Option Color) (outline : Option Color) (w : Nat) : Image :=
  { img with pixel := fun x y =>
      if inEllipse x0 y0 x1 y1 x y then
        match outline with
        | some oc =>
          if inEllipse (x0 + w) (y0 + w) (x1 - w) (y1 - w) x y then
            match fill with
            | some fc => fc
            | none => img.pixel x y
          else oc
        | none =>
          match fill with
          | some fc => fc
          | none => img.pixel x y
      else img.pixel x y }

/-- `ImageDraw.polygon(pts, fill, outline, width)`: interior pixels get
the fill color, then (on top, as PIL strokes the outline after the fill)
pixels on the outline band get the outline color; others are untouched. -/
def drawPolygonOp (img : Image) (pts : List (Int × Int))
    (fill : Option Color) (outline : Option Color) (w : Nat) : Image :=
  { img with pixel := fun x y =>
      match outline with
      | some oc =>
        if onPolygonOutline pts x y w then oc
        else if inPolygon pts x y then
          match fill with
          | some fc => fc
          | none => img.pixel x y
        else img.pixel x y
      | none =>
        if inPolygon pts x y then
          match fill with
          | some fc => fc
          | none => img.pixel x y
        else img.pixel x y }

/-- A drawing operation, the two kinds used by the script. -/
inductive Op where
  | ellipse (x0 y0 x1 y1 : Int) (fill : Option Color) (outline : Option Color) (w : Nat)
  | polygon (pts : List (Int × Int)) (fill : Option Color) (outline : Option Color) (w : Nat)

/-- Apply one drawing operation to a canvas. -/
def applyOp (img : Image) : Op → Image
  | .ellipse x0 y0 x1 y1 f o w => drawEllipseOp img x0 y0 x1 y1 f o w
  | .polygon pts f o w => drawPolygonOp img pts f o w

/-- Apply a list of drawing operations in list order (painter's
algorithm: each later operation draws over the result of the earlier
ones). -/
def applyOps (img : Image) (ops : List Op) : Image :=
  List.foldl applyOp img ops

/-! ## The script's three fixture images -/

/-- `img1 = Image.new('RGB', (400, 400), color='black')`. -/
def img1Canvas : Image := Image.new "RGB" 400 400 black

/-- Image 1 after `draw1.ellipse([100, 100, 300, 300], fill='#667eea',
outline='#764ba2', width=5)`. -/
def img1 : Image := drawEllipseOp img1Canvas 100 100 300 300 (some c667eea) (some c764ba2) 5

/-- `star_points`, the ten vertices of the star polygon of image 2. -/
def star_points : List (Int × Int) :=
  [(200, 50), (220, 150), (300, 150), (240, 210), (270, 300),
   (200, 250), (130, 300), (160, 210), (100, 150), (180, 150)]

/-- `img2 = Image.new('RGB', (400, 400), color='black')`. -/
def img2Canvas : Image := Image.new "RGB" 400 400 black

/-- Image 2 after `draw2.polygon(star_points, fill='#f093fb',
outline='#f5576c', width=5)`. -/
def img2 : Image := drawPolygonOp img2Canvas star_points (some cf093fb) (some cf5576c) 5

/-- `img3 = Image.new('RGB', (400, 400), color='black')`. -/
def img3Canvas : Image := Image.new "RGB" 400 400 black

/-- The triangle of the heart: `[(80, 150), (320, 150), (200, 330)]`. -/
def heartTriangle : List (Int × Int) := [(80, 150), (320, 150), (200, 330)]

/-- Image 3 after the first ellipse:
`draw3.ellipse([80, 100, 180, 200], fill='#ff5252')`. -/
def img3Step1 : Image := drawEllipseOp img3Canvas 80 100 180 200 (some cff5252) none 0

/-- Image 3 after the second ellipse:
`draw3.ellipse([220, 100, 320, 200], fill='#ff5252')`. -/
def img3Step2 : Image := drawEllipseOp img3Step1 220 100 320 200 (some cff5252) none 0

/-- Image 3 after the final triangle:
`draw3.polygon([(80, 150), (320, 150), (200, 330)], fill='#ff5252')`. -/
def img3 : Image := drawPolygonOp img3Step2 heartTriangle (some cff5252) none 0

/-- The heart's three drawing operations, in the literal order of the
source: two filled circles, then the filled triangle. -/
def heartOps : List Op :=
  [.ellipse 80 100 180 200 (some cff5252) none 0,
   .ellipse 220 100 320 200 (some cff5252) none 0,
   .polygon heartTriangle (some cff5252) none 0]

/-! ## Filesystem model and the script as a state transition -/

/-- The filesystem: the set of existing directories, and an association
list from file paths to the (decoded) image stored there. -/
structure FS where
  dirs : List String
  files : List (String × Image)

/-- The empty filesystem. -/
def emptyFS : FS := ⟨[], []⟩

/-- Insert-or-overwrite in an association list, keeping the position of
an existing key (a file overwrite does not move the file). -/
def updateFiles : List (String × Image) → String → Image → List (String × Image)
  | [], p, img => [(p, img)]
  | (q, i) :: rest, p, img =>
    if q = p then (p, img) :: rest else (q, i) :: updateFiles rest p img

/-- Look up the file stored at a path. -/
def lookupFile : List (String × Image) → String → Option Image
  | [], _ => none
  | (q, i) :: rest, p => if q = p then some i else lookupFile rest p

/-- Split a character list on `'/'` (kernel-reducible counterpart of
splitting a path string on the separator). -/
def splitSlash : List Char → List (List Char)
  | [] => [[]]
  | c :: rest =>
    match splitSlash rest with
    | [] => [[]]
    | g :: gs => if c = '/' then [] :: g :: gs else (c :: g) :: gs

/-- Join path components under a root `/`. -/
def joinSlash : List String → String
  | [] => ""
  | [s] => s
  | s :: rest => s ++ "/" ++ joinSlash rest

/-- The chain of ancestor directories of an absolute path:
`"/tmp/test-images"` yields `["/tmp", "/tmp/test-images"]`. -/
def ancestorDirs (path : String) : List String :=
  let parts := ((splitSlash path.toList).map (fun l => String.mk l)).filter (· ≠ "")
  (List.range parts.length).map
    (fun i => "/" ++ joinSlash (parts.take (i + 1)))

/-- Add a directory if absent. -/
def addDir (l : List String) (d : String) : List String :=
  if d ∈ l then l else d :: l

/-- `os.makedirs(path, exist_ok)`: error only when the target directory
already exists and `exist_ok` is false; otherwise create the directory
and every missing ancestor. -/
def makedirs (fs : FS) (path : String) (exist_ok : Bool) : Except String FS :=
  if path ∈ fs.dirs then
    if exist_ok then .ok fs else .error "FileExistsError"
  else .ok { fs with dirs := (ancestorDirs path).foldl addDir fs.dirs }

/-- `img.save(path)`: encode and write the canvas at `path`, overwriting
any existing file there.  `ok` is the environment's success oracle (disk
full, permissions, ...); on failure the underlying `OSError` propagates. -/
def save (ok : String → Bool) (fs : FS) (path : String) (img : Image) :
    Except String FS :=
  if ok path then .ok { fs with files := updateFiles fs.files path img }
  else .error ("OSError: " ++ path)

/-- The output directory of the script. -/
def outDir : String := "/tmp/test-images"

/-- The three output paths. -/
def path1 : String := "/tmp/test-images/image1.png"

/-- Path of image 2. -/
def path2 : String := "/tmp/test-images/image2.png"

/-- Path of image 3. -/
def path3 : String := "/tmp/test-images/image3.png"

/-- Result of a run: final filesystem, printed lines, and the error that
halted the script, if any. -/
structure RunResult where
  fs : FS
  out : List String
  err : Option String

/-- The whole script, straight-line with Python exception semantics: each
step runs on the state left by the previous one; the first failure
halts everything after it (no recovery, no rollback of earlier writes).
Drawing on an in-memory canvas cannot fail; `makedirs` and the three
`save` calls are the effectful steps, and a `print` follows each
successful save. -/
def runScript (ok : String → Bool) (fs0 : FS) : RunResult :=
  match makedirs fs0 outDir true with
  | .error e => ⟨fs0, [], some e⟩
  | .ok fs1 =>
    match save ok fs1 path1 img1 with
    | .error e => ⟨fs1, [], some e⟩
    | .ok fs2 =>
      match save ok fs2 path2 img2 with
      | .error e => ⟨fs2, ["Created image1.png"], some e⟩
      | .ok fs3 =>
        match save ok fs3 path3 img3 with
        | .error e => ⟨fs3, ["Created image1.png", "Created image2.png"], some e⟩
        | .ok fs4 =>
          ⟨fs4,
           ["Created image1.png", "Created image2.png", "Created image3.png",
            "\nTest images created in /tmp/test-images/"],
           none⟩

/-- The all-writes-succeed oracle: a normal, successful run. -/
def okAll : String → Bool := fun _ => true

/-- The all-writes-fail-on-image2 oracle: writing `image2.png` fails,
every other write succeeds. -/
def okFail2 : String → Bool := fun p => !(p == path2)

/-- A 1×1 placeholder for an unrelated pre-existing file. -/
def otherImg : Image := Image.new "RGB" 1 1 black

/-- A filesystem where the output directory pre-exists and holds an
unrelated file. -/
def preFS : FS :=
  ⟨["/tmp/test-images", "/tmp"], [("/tmp/test-images/readme.txt", otherImg)]⟩

/-! ## Helper lemmas on the filesystem model -/

theorem lookupFile_updateFiles_self (l : List (String × Image)) (p : String)
    (v : Image) : lookupFile (updateFiles l p v) p = some v := by
  induction l with
  | nil => simp [updateFiles, lookupFile]
  | cons hd tl ih =>
    obtain ⟨q, i⟩ := hd
    by_cases h : q = p
    · simp [updateFiles, lookupFile, h]
    · simp [updateFiles, lookupFile, h, ih]

theorem lookupFile_updateFiles_ne (l : List (String × Image)) (p q : String)
    (v : Image) (h : q ≠ p) :
    lookupFile (updateFiles l p v) q = lookupFile l q := by
  induction l with
  | nil => simp [updateFiles, lookupFile, Ne.symm h]
  | cons hd tl ih =>
    obtain ⟨r, i⟩ := hd
    by_cases hr : r = p
    · subst hr
      simp [updateFiles, lookupFile, Ne.symm h]
    · simp only [updateFiles, if_neg hr]
      by_cases hq : r = q
      · simp [lookupFile, hq]
      · simp [lookupFile, hq, ih]

theorem updateFiles_self_of_lookupFile (l : List (String × Image)) (p : String)
    (v : Image) (h : lookupFile l p = some v) : updateFiles l p v = l := by
  induction l with
  | nil => simp [lookupFile] at h
  | cons hd tl ih =>
    obtain ⟨q, i⟩ := hd
    by_cases hq : q = p
    · subst hq
      simp only [lookupFile, if_true, eq_self_iff_true, Option.some.injEq] at h
      simp [updateFiles, h]
    · simp only [lookupFile, if_neg hq] at h
      simp [updateFiles, hq, ih h]

theorem mem_addDir_self (l : List String) (d : String) : d ∈ addDir l d := by
  unfold addDir
  split
  · assumption
  · exact List.mem_cons_self d l

theorem ancestorDirs_outDir : ancestorDirs outDir = ["/tmp", "/tmp/test-images"] := by
  decide

theorem outDir_mem_foldl_addDir (l : List String) :
    outDir ∈ (ancestorDirs outDir).foldl addDir l := by
  rw [ancestorDirs_outDir]
  simp only [List.foldl]
  exact mem_addDir_self _ _

/-- Normal form of a fully successful run: the directory chain is
ensured, the three images are written in order, all four lines are
printed, no error. -/
theorem runScript_okAll_eq (fs0 : FS) :
    runScript okAll fs0 =
      ⟨⟨(if outDir ∈ fs0.dirs then fs0.dirs
         else (ancestorDirs outDir).foldl addDir fs0.dirs),
        updateFiles (updateFiles (updateFiles fs0.files path1 img1)
          path2 img2) path3 img3⟩,
       ["Created image1.png", "Created image2.png", "Created image3.png",
        "\nTest images created in /tmp/test-images/"], none⟩ := by
  by_cases h : outDir ∈ fs0.dirs <;>
    simp [runScript, makedirs, save, okAll, h]

/-! ## Claim theorems -/

/-- C1: a successful run produces exactly one file per fixture, at the
fixed deterministic paths `image1.png`, `image2.png`, `image3.png` under
`/tmp/test-images`, and each stored image decodes as an RGB image of
pixel dimensions exactly 400×400. -/
theorem run_writes_three_400x400_rgb_files :
    (runScript okAll emptyFS).err = none ∧
    (runScript okAll emptyFS).fs.files.map Prod.fst = [path1, path2, path3] ∧
    lookupFile (runScript okAll emptyFS).fs.files path1 = some img1 ∧
    lookupFile (runScript okAll emptyFS).fs.files path2 = some img2 ∧
    lookupFile (runScript okAll emptyFS).fs.files path3 = some img3 ∧
    img1.mode = "RGB" ∧ img1.width = 400 ∧ img1.height = 400 ∧
    img2.mode = "RGB" ∧ img2.width = 400 ∧ img2.height = 400 ∧
    img3.mode = "RGB" ∧ img3.width = 400 ∧ img3.height = 400 :=
  ⟨rfl, by decide, rfl, rfl, rfl, rfl, rfl, rfl, rfl, rfl, rfl, rfl, rfl, rfl⟩

/-- C2: the heart canvas is the fold of its three operations in the
literal source order (circle, circle, triangle), and each draw composes
by painter's algorithm: inside its region the new fill overwrites
whatever was there, outside it the previous canvas shows through, with
no blending. -/
theorem heart_sequential_painter :
    img3 = applyOps img3Canvas heartOps ∧
    (∀ x y : Int, img3Step1.pixel x y =
      if inEllipse 80 100 180 200 x y then cff5252 else img3Canvas.pixel x y) ∧
    (∀ x y : Int, img3Step2.pixel x y =
      if inEllipse 220 100 320 200 x y then cff5252 else img3Step1.pixel x y) ∧
    (∀ x y : Int, img3.pixel x y =
      if inPolygon heartTriangle x y then cff5252 else img3Step2.pixel x y) :=
  ⟨rfl, fun _ _ => rfl, fun _ _ => rfl, fun _ _ => rfl⟩

/-- C3: the central pixel (200, 200) of image 1 lies inside the circle's
fill region (inside the ellipse, and inside the width-5 inset so not on
the outline band) and carries the fill color `#667eea`, which differs
from the background and from the outline color. -/
theorem image1_center_is_fill :
    inEllipse 100 100 300 300 200 200 = true ∧
    inEllipse 105 105 295 295 200 200 = true ∧
    img1.pixel 200 200 = c667eea ∧
    c667eea ≠ black ∧ c667eea ≠ c764ba2 := by
  decide

/-- C9: two-color invariant of the heart canvas: after each of the three
draw operations every pixel is either the black background or the heart
fill `#ff5252` — overlaps introduce no third color. -/
theorem heart_two_colors (x y : Int) :
    (img3Step1.pixel x y = black ∨ img3Step1.pixel x y = cff5252) ∧
    (img3Step2.pixel x y = black ∨ img3Step2.pixel x y = cff5252) ∧
    (img3.pixel x y = black ∨ img3.pixel x y = cff5252) := by
  have h1 : img3Step1.pixel x y = black ∨ img3Step1.pixel x y = cff5252 := by
    simp only [img3Step1, img3Canvas, Image.new, drawEllipseOp]
    split_ifs <;> simp
  have h2 : img3Step2.pixel x y = black ∨ img3Step2.pixel x y = cff5252 := by
    simp only [img3Step2, drawEllipseOp]
    split_ifs
    · simp
    · exact h1
  have h3 : img3.pixel x y = black ∨ img3.pixel x y = cff5252 := by
    simp only [img3, drawPolygonOp]
    split_ifs
    · simp
    · exact h2
  exact ⟨h1, h2, h3⟩

/-- C4 counterexample: the region shared by the two top circles of the
heart is empty — the first ellipse lies in `x ∈ [80, 180]` and the
second in `x ∈ [220, 320]` — so no point lies simultaneously inside the
first ellipse, the second ellipse and the triangle; the presupposition
of the claim fails. -/
theorem heart_three_way_overlap_empty :
    ¬ ∃ x y : Int, inEllipse 80 100 180 200 x y = true ∧
      inEllipse 220 100 320 200 x y = true ∧
      inPolygon heartTriangle x y = true := by
  rintro ⟨x, y, h1, h2, -⟩
  simp only [inEllipse, decide_eq_true_eq] at h1 h2
  nlinarith [sq_nonneg (2 * x - 260 + (2 * x - 540)),
    sq_nonneg (2 * y - 300), h1, h2]

/-- C4 amended: at any pixel where one of the two top circles overlaps
the lower triangle, image 3 carries the heart fill color `#ff5252`. -/
theorem heart_circle_triangle_overlap_fill (x y : Int)
    (_hc : inEllipse 80 100 180 200 x y = true ∨
           inEllipse 220 100 320 200 x y = true)
    (ht : inPolygon heartTriangle x y = true) :
    img3.pixel x y = cff5252 := by
  simp only [img3, drawPolygonOp]
  simp [ht]

/-- Witness for the amended C4 at the concrete point (130, 160), which
lies inside the first circle and inside the triangle. -/
theorem heart_circle_triangle_overlap_fill_witness :
    (inEllipse 80 100 180 200 130 160 = true ∨
     inEllipse 220 100 320 200 130 160 = true) ∧
    inPolygon heartTriangle 130 160 = true ∧
    img3.pixel 130 160 = cff5252 :=
  ⟨Or.inl (by decide), by decide,
   heart_circle_triangle_overlap_fill 130 160 (Or.inl (by decide)) (by decide)⟩

/-- C7: `os.makedirs('/tmp/test-images', exist_ok=True)` never fails:
whatever the prior state, it returns successfully, afterwards the output
directory exists, no file is touched, and on a pre-existing directory
the filesystem is left exactly as it was. -/
theorem makedirs_exist_ok_succeeds (fs : FS) :
    ∃ fs', makedirs fs outDir true = .ok fs' ∧ outDir ∈ fs'.dirs ∧
      fs'.files = fs.files ∧ (outDir ∈ fs.dirs → fs' = fs) := by
  by_cases h : outDir ∈ fs.dirs
  · exact ⟨fs, by simp [makedirs, h], h, rfl, fun _ => rfl⟩
  · refine ⟨{ fs with dirs := (ancestorDirs outDir).foldl addDir fs.dirs },
      by simp [makedirs, h], outDir_mem_foldl_addDir fs.dirs, rfl,
      fun hc => absurd hc h⟩

/-- C5: running the script a second time on the state left by a first
successful run overwrites the three files in place and reproduces the
exact same result — filesystem, printed lines and error status are all
identical, so two consecutive runs end in the state of one run. -/
theorem run_idempotent (fs0 : FS) :
    runScript okAll ((runScript okAll fs0).fs) = runScript okAll fs0 := by
  rw [runScript_okAll_eq fs0, runScript_okAll_eq]
  set f1 := updateFiles (updateFiles (updateFiles fs0.files path1 img1)
    path2 img2) path3 img3 with hf1
  have l1 : lookupFile f1 path1 = some img1 := by
    rw [hf1, lookupFile_updateFiles_ne _ _ _ _ (by decide),
      lookupFile_updateFiles_ne _ _ _ _ (by decide),
      lookupFile_updateFiles_self]
  have l2 : lookupFile f1 path2 = some img2 := by
    rw [hf1, lookupFile_updateFiles_ne _ _ _ _ (by decide),
      lookupFile_updateFiles_self]
  have l3 : lookupFile f1 path3 = some img3 := by
    rw [hf1, lookupFile_updateFiles_self]
  have hfiles : updateFiles (updateFiles (updateFiles f1 path1 img1)
      path2 img2) path3 img3 = f1 := by
    rw [updateFiles_self_of_lookupFile _ _ _ l1,
      updateFiles_self_of_lookupFile _ _ _ l2,
      updateFiles_self_of_lookupFile _ _ _ l3]
  have hdir : outDir ∈ (if outDir ∈ fs0.dirs then fs0.dirs
      else (ancestorDirs outDir).foldl addDir fs0.dirs) := by
    by_cases h : outDir ∈ fs0.dirs
    · simp [h]
    · simpa [h] using outDir_mem_foldl_addDir fs0.dirs
  simp [hdir, hfiles]

/-- `makedirs` never touches files, whatever branch it takes. -/
theorem makedirs_ok_files {fs : FS} {p : String} {b : Bool} {fs' : FS}
    (h : makedirs fs p b = .ok fs') : fs'.files = fs.files := by
  unfold makedirs at h
  split at h
  · split at h
    · cases h
      rfl
    · cases h
  · cases h
    rfl

/-- A successful `save` performs exactly the overwrite-or-add update at
its path. -/
theorem save_ok_files {ok : String → Bool} {fs : FS} {p : String}
    {img : Image} {fs' : FS} (h : save ok fs p img = .ok fs') :
    fs'.files = updateFiles fs.files p img := by
  unfold save at h
  split at h
  · cases h
    rfl
  · cases h

/-- C6: the generator only adds or overwrites its own three named files:
for every run (successful or not, any oracle, any starting filesystem),
a file at any path other than the three output paths is unchanged. -/
theorem run_frame (fs0 : FS) (ok : String → Bool) (q : String)
    (h1 : q ≠ path1) (h2 : q ≠ path2) (h3 : q ≠ path3) :
    lookupFile (runScript ok fs0).fs.files q = lookupFile fs0.files q := by
  unfold runScript
  cases hm : makedirs fs0 outDir true with
  | error e => rfl
  | ok fs1 =>
    have e1 := makedirs_ok_files hm
    dsimp only
    cases hs1 : save ok fs1 path1 img1 with
    | error e => rw [e1]
    | ok fs2 =>
      have e2 := save_ok_files hs1
      dsimp only
      cases hs2 : save ok fs2 path2 img2 with
      | error e => rw [e2, lookupFile_updateFiles_ne _ _ _ _ h1, e1]
      | ok fs3 =>
        have e3 := save_ok_files hs2
        dsimp only
        cases hs3 : save ok fs3 path3 img3 with
        | error e =>
          rw [e3, lookupFile_updateFiles_ne _ _ _ _ h2,
            e2, lookupFile_updateFiles_ne _ _ _ _ h1, e1]
        | ok fs4 =>
          have e4 := save_ok_files hs3
          dsimp only
          rw [e4, lookupFile_updateFiles_ne _ _ _ _ h3,
            e3, lookupFile_updateFiles_ne _ _ _ _ h2,
            e2, lookupFile_updateFiles_ne _ _ _ _ h1, e1]

/-- Witness for C6: on a pre-existing directory holding an unrelated
`readme.txt`, that file is untouched by a full run. -/
theorem run_frame_witness :
    ("/tmp/test-images/readme.txt" ≠ path1) ∧
    ("/tmp/test-images/readme.txt" ≠ path2) ∧
    ("/tmp/test-images/readme.txt" ≠ path3) ∧
    lookupFile (runScript okAll preFS).fs.files "/tmp/test-images/readme.txt" =
      lookupFile preFS.files "/tmp/test-images/readme.txt" :=
  ⟨by decide, by decide, by decide,
   run_frame preFS okAll "/tmp/test-images/readme.txt"
     (by decide) (by decide) (by decide)⟩

/-- C8: if writing image 2 fails (while image 1's write succeeds), the
error propagates immediately: the run stops with that error, only the
`image1.png` confirmation was printed, fixture 1's freshly written file
is still on disk, and fixture 3's path is exactly as it was before the
run — no rollback, no retry, fixture 3 never attempted. -/
theorem failure_on_image2_halts (fs0 : FS) (ok : String → Bool)
    (h1 : ok path1 = true) (h2 : ok path2 = false) :
    (runScript ok fs0).err = some ("OSError: " ++ path2) ∧
    (runScript ok fs0).out = ["Created image1.png"] ∧
    lookupFile (runScript ok fs0).fs.files path1 = some img1 ∧
    lookupFile (runScript ok fs0).fs.files path3 = lookupFile fs0.files path3 := by
  obtain ⟨fs1, hm, hfl⟩ : ∃ fs1, makedirs fs0 outDir true = .ok fs1 ∧
      fs1.files = fs0.files := by
    by_cases hd : outDir ∈ fs0.dirs
    · exact ⟨fs0, by simp [makedirs, hd], rfl⟩
    · exact ⟨{ fs0 with dirs := (ancestorDirs outDir).foldl addDir fs0.dirs },
        by simp [makedirs, hd], rfl⟩
  unfold runScript
  rw [hm]
  dsimp only
  simp only [save, h1, h2, if_true, Bool.false_eq_true, if_false]
  refine ⟨trivial, trivial, ?_, ?_⟩
  · exact lookupFile_updateFiles_self _ _ _
  · rw [lookupFile_updateFiles_ne _ _ _ _ (by decide), hfl]

/-- Witness for C8: with the oracle that fails exactly on `image2.png`,
starting from the empty filesystem. -/
theorem failure_on_image2_halts_witness :
    okFail2 path1 = true ∧ okFail2 path2 = false ∧
    ((runScript okFail2 emptyFS).err = some ("OSError: " ++ path2) ∧
     (runScript okFail2 emptyFS).out = ["Created image1.png"] ∧
     lookupFile (runScript okFail2 emptyFS).fs.files path1 = some img1 ∧
     lookupFile (runScript okFail2 emptyFS).fs.files path3 =
       lookupFile emptyFS.files path3) :=
  ⟨by decide, by decide,
   failure_on_image2_halts emptyFS okFail2 (by decide) (by decide)⟩

/-- The three output paths read back exactly the three images after the
triple update performed by a successful run. -/
theorem lookupFile_three_updates (f : List (String × Image)) :
    lookupFile (updateFiles (updateFiles (updateFiles f path1 img1)
        path2 img2) path3 img3) path1 = some img1 ∧
    lookupFile (updateFiles (updateFiles (updateFiles f path1 img1)
        path2 img2) path3 img3) path2 = some img2 ∧
    lookupFile (updateFiles (updateFiles (updateFiles f path1 img1)
        path2 img2) path3 img3) path3 = some img3 := by
  refine ⟨?_, ?_, ?_⟩
  · rw [lookupFile_updateFiles_ne _ _ _ _ (by decide),
      lookupFile_updateFiles_ne _ _ _ _ (by decide),
      lookupFile_updateFiles_self]
  · rw [lookupFile_updateFiles_ne _ _ _ _ (by decide),
      lookupFile_updateFiles_self]
  · rw [lookupFile_updateFiles_self]

/-- C10: determinism of the canvas contents: the script takes no runtime
input, so from any two starting filesystems a successful run stores the
same three literal images — the contents at the three output paths are
fixed constants, hence pixel-for-pixel identical between any two runs. -/
theorem canvas_contents_deterministic (fsA fsB : FS) :
    lookupFile (runScript okAll fsA).fs.files path1 = some img1 ∧
    lookupFile (runScript okAll fsA).fs.files path2 = some img2 ∧
    lookupFile (runScript okAll fsA).fs.files path3 = some img3 ∧
    lookupFile (runScript okAll fsA).fs.files path1 =
      lookupFile (runScript okAll fsB).fs.files path1 ∧
    lookupFile (runScript okAll fsA).fs.files path2 =
      lookupFile (runScript okAll fsB).fs.files path2 ∧
    lookupFile (runScript okAll fsA).fs.files path3 =
      lookupFile (runScript okAll fsB).fs.files path3 := by
  have hA := lookupFile_three_updates fsA.files
  have hB := lookupFile_three_updates fsB.files
  rw [runScript_okAll_eq fsA, runScript_okAll_eq fsB]
  dsimp only
  exact ⟨hA.1, hA.2.1, hA.2.2, by rw [hA.1, hB.1], by rw [hA.2.1, hB.2.1],
    by rw [hA.2.2, hB.2.2]⟩
